import Mathlib

/-!
Shallow embedding of `py_yaml_fixtures/factories/sqlalchemy.py`
(`SQLAlchemyModelFactory`), the entity-reconciliation core of the
py-yaml-fixtures library, together with proofs of the specification's
testable properties.

Modelling conventions:
* Python runtime values that flow through the factory are `PyVal`.
  Python `float` is modelled by an exact scaled decimal; the inputs
  exercised here (integral magnitudes such as "2") are exactly
  representable in IEEE doubles, so the model agrees with Python on
  them.
* Python exceptions are `Err`; `Err.keyError` is raised by the
  `self.models[...]` lookup (the spec's `UnknownType`), and
  `Err.multipleResultsFound` by `Query.one_or_none` (the spec's
  `AmbiguousMatch`).
* ORM instances are heap references (`Nat`) into `FactoryState.objs`;
  an instrumented attribute that was never set reads as `PyVal.none`,
  as SQLAlchemy column attributes do on fresh instances.
* The SQLAlchemy backend itself (the SQL emitted by
  `session.query(...).filter(...)`) is external to this repository and
  is abstracted as `Factory.backendQuery`, the list of row references a
  given equality filter returns; `one_or_none` semantics are applied to
  that list.  Likewise `self.loader.convert_identifiers`,
  `date_factory` and `datetime_factory` are injected collaborators and
  appear as function-valued fields.
-/

namespace PyYamlFixtures

/-- Python values that flow through the factory.  `float mant exp`
denotes the decimal `mant / 10 ^ exp` exactly (the inputs exercised
here are exactly representable in IEEE doubles, so the model agrees
with Python on them; no claim compares two float representations);
`time` and `date` carry their fields as integers (`datetime.time` /
`datetime.date` validate ranges on construction); `timedelta` is the
signed integer count of microseconds Python normalises a duration to;
`ref` is a reference to an ORM instance (an object with a
`__mapper__`). -/
inductive PyVal where
  | none
  | bool (b : Bool)
  | int (n : Int)
  | float (mant : Int) (exp : Nat)
  | str (s : String)
  | date (y m d : Int)
  | time (h mi sec usec : Int)
  | timedelta (usec : Int)
  | ref (r : Nat)
  deriving DecidableEq, Repr

/-- `isinstance(v, (bool, int, str, float))` from `_get_existing`'s
fallback filter. -/
def PyVal.isScalar : PyVal → Bool
  | .bool _ => true
  | .int _ => true
  | .str _ => true
  | .float _ _ => true
  | _ => false

/-- `hasattr(v, "__mapper__")`: true exactly for ORM instances. -/
def PyVal.isRef : PyVal → Bool
  | .ref _ => true
  | _ => false

/-- `v is None`. -/
def PyVal.isNone : PyVal → Bool
  | .none => true
  | _ => false

/-- Python exceptions the factory can raise.  `keyError` comes from the
`self.models[identifier.class_name]` dict lookup, `multipleResultsFound`
from `Query.one_or_none`, the rest from attribute access, `int`/`float`
parsing and `datetime` constructor validation. -/
inductive Err where
  | keyError
  | attributeError
  | valueError
  | typeError
  | multipleResultsFound
  deriving DecidableEq, Repr

/-- Decidable equality of results, so concrete runs can be checked by
`decide`. -/
instance instDecEqExcept {ε α : Type} [DecidableEq ε] [DecidableEq α] :
    DecidableEq (Except ε α) :=
  fun a b =>
    match a, b with
    | .ok x, .ok y =>
      if h : x = y then .isTrue (by rw [h])
      else .isFalse (by intro hc; cases hc; exact h rfl)
    | .error x, .error y =>
      if h : x = y then .isTrue (by rw [h])
      else .isFalse (by intro hc; cases hc; exact h rfl)
    | .ok _, .error _ => .isFalse (by intro hc; cases hc)
    | .error _, .ok _ => .isFalse (by intro hc; cases hc)

/-- A Python dict of attribute values, as an association list in
insertion order (Python dicts preserve insertion order and have unique
keys; theorems add `Nodup` hypotheses where that matters). -/
abbrev PyDict := List (String × PyVal)

/-- `d[k]` as an option: the first binding of `k`. -/
def lookupKey (d : PyDict) (k : String) : Option PyVal :=
  (d.find? (fun kv => kv.1 == k)).map (fun kv => kv.2)

/-- Generic association-list lookup (`dict.get`). -/
def alookup {α β : Type} [BEq α] (l : List (α × β)) (k : α) : Option β :=
  (l.find? (fun kv => kv.1 == k)).map (fun kv => kv.2)

/-! ### Python `str.split`, `int()` and `float()`

These are CPython builtins, external to the repository.  `str.split`
with an explicit one-character separator splits at every occurrence and
keeps empty pieces; `int()`/`float()` are modelled on plain decimal
numerals (optional sign, digits, and for `float` an optional fractional
part) — whitespace trimming, underscore separators and exponent forms
are outside the inputs this development exercises. -/

/-- `s.split(sep)` for a one-character separator, on the character
list: splits at every occurrence, keeping empty pieces. -/
def splitOnCharList (c : Char) : List Char → List (List Char)
  | [] => [[]]
  | x :: rest =>
    match splitOnCharList c rest, x == c with
    | r, true => [] :: r
    | [], false => [[x]]
    | y :: ys, false => (x :: y) :: ys

/-- Python `s.split(c)` for a one-character separator `c`. -/
def pySplit (c : Char) (s : String) : List String :=
  (splitOnCharList c s.data).map (fun l => { data := l })

/-- Value of a nonempty all-digit character list, else `none`. -/
def digitsVal (cs : List Char) : Option Nat :=
  if cs ≠ [] ∧ cs.all Char.isDigit then
    some (cs.foldl (fun acc c => acc * 10 + (c.toNat - 48)) 0)
  else Option.none

/-- Digit-list value without the emptiness check (used for the two
halves of a decimal literal). -/
def natOfDigits (cs : List Char) : Nat :=
  cs.foldl (fun acc c => acc * 10 + (c.toNat - 48)) 0

/-- Python `int(s)` on decimal numerals. -/
def pyInt (s : String) : Option Int :=
  match s.data with
  | '+' :: rest => (digitsVal rest).map Int.ofNat
  | '-' :: rest => (digitsVal rest).map (fun n => -(n : Int))
  | l => (digitsVal l).map Int.ofNat

/-- Unsigned part of a Python `float` literal as an exact scaled
decimal `(mantissa, exponent)` with value `mantissa / 10 ^ exponent`:
`digits`, `digits.digits`, `digits.` or `.digits`. -/
def pyFloatMag (cs : List Char) : Option (Int × Nat) :=
  let ip := cs.takeWhile (fun c => c != '.')
  let rest := cs.dropWhile (fun c => c != '.')
  match rest with
  | [] => (digitsVal ip).map (fun n => ((n : Int), 0))
  | _ :: frac =>
    if ip.all Char.isDigit ∧ frac.all Char.isDigit ∧ (ip ≠ [] ∨ frac ≠ []) then
      some (((natOfDigits ip * 10 ^ frac.length + natOfDigits frac : Nat) : Int), frac.length)
    else Option.none

/-- Python `float(s)` on fixed-point decimal literals, as an exact
scaled decimal. -/
def pyFloat (s : String) : Option (Int × Nat) :=
  match s.data with
  | '+' :: rest => pyFloatMag rest
  | '-' :: rest => (pyFloatMag rest).map (fun p => (-p.1, p.2))
  | l => pyFloatMag l

/-! ### `datetime.time` and `datetime.timedelta` construction -/

/-- `datetime.time(h, m, s, us)` range validation (raises `ValueError`
out of range). -/
def mkTimeChecked (h m s us : Int) : Except Err PyVal :=
  if 0 ≤ h ∧ h < 24 ∧ 0 ≤ m ∧ m < 60 ∧ 0 ≤ s ∧ s < 60 ∧ 0 ≤ us ∧ us < 1000000 then
    .ok (.time h m s us)
  else .error .valueError

/-- `datetime.time(*args)`: up to four positional integers
(hour, minute, second, microsecond); a fifth positional argument would
be `tzinfo`, for which an `int` raises `TypeError`, as does any longer
argument list. -/
def mkTime : List Int → Except Err PyVal
  | [] => mkTimeChecked 0 0 0 0
  | [h] => mkTimeChecked h 0 0 0
  | [h, m] => mkTimeChecked h m 0 0
  | [h, m, s] => mkTimeChecked h m s 0
  | [h, m, s, us] => mkTimeChecked h m s us
  | _ :: _ :: _ :: _ :: _ :: _ => .error .typeError

/-- `[int(x) for x in parts]`: all-or-nothing integer parsing
(`ValueError` propagates from the first bad component). -/
def intsOf : List String → Option (List Int)
  | [] => some []
  | x :: rest =>
    match pyInt x with
    | Option.none => Option.none
    | some n => (intsOf rest).map (fun l => n :: l)

/-- `time(*[int(x) for x in value.split(':')])` — line 122 of
`sqlalchemy.py`. -/
def parseTimeStr (s : String) : Except Err PyVal :=
  match intsOf (pySplit (Char.ofNat 58) s) with
  | Option.none => .error .valueError
  | some args => mkTime args

/-- Microseconds per `timedelta` keyword unit; a keyword that is not a
`timedelta` parameter raises `TypeError`. -/
def unitMicroseconds : String → Option Nat
  | "weeks" => some (7 * 86400 * 1000000)
  | "days" => some (86400 * 1000000)
  | "hours" => some (3600 * 1000000)
  | "minutes" => some (60 * 1000000)
  | "seconds" => some 1000000
  | "milliseconds" => some 1000
  | "microseconds" => some 1
  | _ => Option.none

/-- `duration, unit = value.split(" "); timedelta(**\x7bunit: float(duration)\x7d)`
— lines 126–127 of `sqlalchemy.py`.  `split(" ")` must yield exactly two
tokens or tuple unpacking raises `ValueError`.  The resulting duration
is the magnitude times the unit, in microseconds; the division by the
decimal scale is exact on every input exercised here (Python rounds the
float product to integral microseconds). -/
def parseDurationStr (s : String) : Except Err PyVal :=
  match pySplit (Char.ofNat 32) s with
  | [duration, unitName] =>
    match pyFloat duration with
    | Option.none => .error .valueError
    | some mag =>
      match unitMicroseconds unitName with
      | Option.none => .error .typeError
      | some m =>
        .ok (.timedelta (Int.ediv (mag.1 * (m : Int)) ((10 : Int) ^ mag.2)))
  | _ => .error .valueError

/-! ### Type metadata (the SQLAlchemy mapper, abstracted)

`model_class.__mapper__.columns`, `__mapper__.primary_key`, the
relationship set computed by `get_relationships`, and the per-attribute
class descriptors inspected by `maybe_convert_values` are SQLAlchemy
metadata, external to the repository; they are carried as data on
`ModelClass`. -/

/-- One entry of `model_class.__mapper__.columns`. -/
structure Column where
  name : String
  primary_key : Bool
  unique : Bool
  deriving DecidableEq, Repr

/-- The semantic kind `maybe_convert_values` branches on:
`str(col.type) == "UUID"`, then `col.type.python_type` against `date`,
`time`, `datetime`, `timedelta`; `plainKind` is any other
`python_type`. -/
inductive ColType where
  | uuid
  | dateKind
  | timeKind
  | datetimeKind
  | durationKind
  | plainKind
  deriving DecidableEq, Repr

/-- A mapped model class.  `relationships` is the set computed by
`get_relationships` (relationship descriptors and association proxies —
SQLAlchemy metadata, carried as data; `lru_cache` memoisation of a pure
computation is semantically transparent).  `attrInfo name` models
`getattr(model_class, name)`: `Option.none` when the class has no such
attribute (`AttributeError`), `some Option.none` when the descriptor has
no `.type` attribute, `some (some t)` for a column of kind `t`. -/
structure ModelClass where
  columns : List Column
  relationships : List String
  attrInfo : String → Option (Option ColType)

/-- `model_class.__mapper__.primary_key` as column names. -/
def ModelClass.primaryKeyNames (mc : ModelClass) : List String :=
  (mc.columns.filter (fun c => c.primary_key)).map (fun c => c.name)

/-- An ORM instance on the heap: its class and its instrumented
attributes (unset column attributes read as `None`). -/
structure Obj where
  cls : String
  attrs : String → PyVal

/-- The factory's immutable collaborators: the registered `models`
dict, the abstracted backend query (which row references a given
equality filter returns, in order), and the injected conversion
functions (`self.loader.convert_identifiers`, `self.date_factory`,
`self.datetime_factory`). -/
structure Factory where
  models : List (String × ModelClass)
  backendQuery : String → List (String × PyVal) → List Nat
  date_factory : PyVal → Except Err PyVal
  datetime_factory : PyVal → Except Err PyVal
  convert_identifiers : PyVal → PyVal

/-- The factory's mutable state: the instance heap, the next fresh
reference, the identity set of `self.session` (`instance in session`),
and `self.model_instances` keyed by `(class_name, key)`. -/
structure FactoryState where
  objs : Nat → Obj
  nextRef : Nat
  sessionSet : List Nat
  cache : List ((String × String) × Nat)

/-- `Identifier` from `py_yaml_fixtures.types` (not under `src/`; its
two fields `class_name` and `key` are exactly the accesses
`sqlalchemy.py` makes). -/
structure Identifier where
  class_name : String
  key : String
  deriving DecidableEq, Repr

/-! ### Value Coercion — `maybe_convert_values` (lines 104–128) -/

/-- The body of the `for col_name, value in data.items()` loop of
`maybe_convert_values`, for one attribute.  Returns `some newValue`
when the loop assigns `rv[col_name]`, `Option.none` when it falls
through without assigning (`continue` on a descriptor without `.type`,
or a `python_type` matching no branch), and an error when the iteration
raises. -/
def convertOne (F : Factory) (mc : ModelClass) (k : String) (v : PyVal) :
    Except Err (Option PyVal) :=
  match mc.attrInfo k with
  | Option.none => .error .attributeError
  | some info =>
    if mc.relationships.contains k then
      .ok (some (F.convert_identifiers v))
    else
      match info with
      | Option.none => .ok Option.none
      | some .uuid => .ok (some v)
      | some .dateKind => (F.date_factory v).map some
      | some .timeKind =>
        match v with
        | .str s => (parseTimeStr s).map some
        | _ => .error .attributeError
      | some .datetimeKind => (F.datetime_factory v).map some
      | some .durationKind =>
        match v with
        | .str s => (parseDurationStr s).map some
        | _ => .error .attributeError
      | some .plainKind => .ok Option.none

/-- `maybe_convert_values` as a value-level function: `rv = data.copy()`
followed by the conversion loop leaves, for each entry, either the
converted value or (when the loop body does not assign) the original
copy. -/
def mcvList (F : Factory) (mc : ModelClass) : PyDict → Except Err PyDict
  | [] => .ok []
  | kv :: rest =>
    match convertOne F mc kv.1 kv.2 with
    | .error e => .error e
    | .ok nv =>
      match mcvList F mc rest with
      | .error e => .error e
      | .ok out => .ok ((kv.1, nv.getD kv.2) :: out)

/-- `maybe_convert_values(identifier, data)`, lines 104–128: looks up
the model class for the identifier and converts each attribute. -/
def maybe_convert_values (F : Factory) (ident : Identifier) (data : PyDict) :
    Except Err PyDict :=
  match alookup F.models ident.class_name with
  | Option.none => .error .keyError
  | some mc => mcvList F mc data

/-! ### `maybe_convert_values` with explicit dict mutation

To state that the function never mutates its input dict, the same code
is embedded once more against an explicit dict heap: `rv = data.copy()`
allocates a fresh reference and the loop assigns items only through
that reference.  An uncaught exception leaves the heap as it was at the
raise. -/

/-- A heap of Python dict objects. -/
structure DictHeap where
  store : Nat → PyDict
  next : Nat

/-- Python `d[k] = v`: replace in place if the key is present, else
append. -/
def dictSet (d : PyDict) (k : String) (v : PyVal) : PyDict :=
  if d.any (fun kv => kv.1 == k) then
    d.map (fun kv => if kv.1 == k then (k, v) else kv)
  else d ++ [(k, v)]

/-- The conversion loop writing through reference `rv`. -/
def mcvLoopSt (F : Factory) (mc : ModelClass) (rv : Nat) :
    List (String × PyVal) → DictHeap → Except (Err × DictHeap) DictHeap
  | [], h => .ok h
  | kv :: rest, h =>
    match convertOne F mc kv.1 kv.2 with
    | .error e => .error (e, h)
    | .ok Option.none => mcvLoopSt F mc rv rest h
    | .ok (some nv) =>
      mcvLoopSt F mc rv rest
        { h with store := Function.update h.store rv (dictSet (h.store rv) kv.1 nv) }

/-- `maybe_convert_values` against the dict heap: `dref` is the `data`
argument, the returned reference is `rv`. -/
def maybe_convert_values_st (F : Factory) (ident : Identifier) (h : DictHeap) (dref : Nat) :
    Except (Err × DictHeap) (Nat × DictHeap) :=
  match alookup F.models ident.class_name with
  | Option.none => .error (.keyError, h)
  | some mc =>
    let data := h.store dref
    let rv := h.next
    let h1 : DictHeap := { store := Function.update h.store rv data, next := h.next + 1 }
    match mcvLoopSt F mc rv data h1 with
    | .error eh => .error eh
    | .ok h2 => .ok (rv, h2)

/-! ### Existing-instance matcher — `_get_existing` (lines 55–88) -/

/-- Lines 63–66: the key-filter tier.  `filter_kwargs` collects, in
column order, every mapper column whose name occurs in `data` and that
is primary-key or unique, bound to its value in `data`. -/
def keyFilter (mc : ModelClass) (d : PyDict) : List (String × PyVal) :=
  (mc.columns.filter
      (fun c => (lookupKey d c.name).isSome && (c.primary_key || c.unique))).map
    (fun c => (c.name, (lookupKey d c.name).getD PyVal.none))

/-- Lines 69–73: the fallback tier keeps every entry whose value is a
mapped instance under a relationship attribute, is `None`, or is a
primitive scalar. -/
def fallbackFilter (rels : List String) (d : PyDict) : List (String × PyVal) :=
  d.filter (fun kv => (rels.contains kv.1 && kv.2.isRef) || kv.2.isNone || kv.2.isScalar)

/-- Lines 77–85: walk the filter items; for a relationship-valued item,
read the referenced instance's primary-key attributes
(`v.__mapper__.primary_key`); if any reads `None`, `_get_existing`
returns `None` (`.ok false` here); a relationship value without a
mapper, or of an unregistered class, has no `__mapper__` metadata and
raises.  `.ok true` means the loop completed and the query runs. -/
def relPkLoop (F : Factory) (s : FactoryState) (rels : List String) :
    List (String × PyVal) → Except Err Bool
  | [] => .ok true
  | kv :: rest =>
    if rels.contains kv.1 then
      match kv.2 with
      | .ref r =>
        match alookup F.models (s.objs r).cls with
        | Option.none => .error .attributeError
        | some vmc =>
          if vmc.primaryKeyNames.any (fun pk => (s.objs r).attrs pk == PyVal.none) then
            .ok false
          else relPkLoop F s rels rest
      | _ => .error .attributeError
    else relPkLoop F s rels rest

/-- `Query.one_or_none` applied to the rows the backend returns for the
filter: zero rows is no match, one row is the match, more than one
raises `MultipleResultsFound`. -/
def oneOrNone : List Nat → Except Err (Option Nat)
  | [] => .ok Option.none
  | [r] => .ok (some r)
  | _ :: _ :: _ => .error .multipleResultsFound

/-- Lines 62–88 of `_get_existing`: the two filter tiers, the
relationship primary-key walk, and the final query under
`no_autoflush`. -/
def queryTiers (F : Factory) (s : FactoryState) (cls : String) (mc : ModelClass)
    (d : PyDict) : Except Err (Option Nat) :=
  let flt0 := keyFilter mc d
  let flt := if flt0.isEmpty then fallbackFilter mc.relationships d else flt0
  if flt.isEmpty then .ok Option.none
  else
    match relPkLoop F s mc.relationships flt with
    | .error e => .error e
    | .ok false => .ok Option.none
    | .ok true => oneOrNone (F.backendQuery cls flt)

/-- `_get_existing(identifier, data)`, lines 55–88: the model lookup
(KeyError on an unregistered class name), the cache tier
(`model_instances[class_name].get(key)` accepted when it is an instance
of the model class still contained in the session), then the query
tiers.  The function performs no writes, so no state is returned. -/
def get_existing (F : Factory) (s : FactoryState) (ident : Identifier) (d : PyDict) :
    Except Err (Option Nat) :=
  match alookup F.models ident.class_name with
  | Option.none => .error .keyError
  | some mc =>
    match alookup s.cache (ident.class_name, ident.key) with
    | some r =>
      if (s.objs r).cls == ident.class_name && s.sessionSet.contains r then .ok (some r)
      else queryTiers F s ident.class_name mc d
    | Option.none => queryTiers F s ident.class_name mc d

/-! ### Upsert engine — `create_or_update` (lines 40–53) -/

/-- Lines 51–52: `session.add(instance)` and
`model_instances[class_name][key] = instance`. -/
def addAndCache (s : FactoryState) (ident : Identifier) (r : Nat) : FactoryState :=
  { s with
    sessionSet := r :: s.sessionSet,
    cache := ((ident.class_name, ident.key), r) :: s.cache }

/-- `create_or_update(identifier, data)`, lines 40–53.  State is
threaded explicitly; an uncaught Python exception leaves all mutations
made before the raise in place, so the error carries the state at the
raise (here: `_get_existing` raises before any mutation, so errors
carry the input state unchanged).  On the create path,
`model_class(**data)` builds a fresh instance whose declared attributes
are set from the keyword arguments and whose other column attributes
read as `None`; on the update path, every key of `data` is assigned
onto the matched instance in iteration order. -/
def create_or_update (F : Factory) (s : FactoryState) (ident : Identifier) (d : PyDict) :
    Except (Err × FactoryState) ((Nat × Bool) × FactoryState) :=
  match get_existing F s ident d with
  | .error e => .error (e, s)
  | .ok Option.none =>
    match alookup F.models ident.class_name with
    | Option.none => .error (.keyError, s)
    | some _ =>
      let r := s.nextRef
      let obj : Obj :=
        { cls := ident.class_name, attrs := fun k => (lookupKey d k).getD PyVal.none }
      let s1 : FactoryState :=
        { s with objs := Function.update s.objs r obj, nextRef := s.nextRef + 1 }
      .ok ((r, true), addAndCache s1 ident r)
  | .ok (some r) =>
    let obj := s.objs r
    let obj1 : Obj :=
      { obj with attrs := d.foldl (fun f kv => Function.update f kv.1 kv.2) obj.attrs }
    let s1 : FactoryState := { s with objs := Function.update s.objs r obj1 }
    .ok ((r, false), addAndCache s1 ident r)

/-! ### Spec-modelled default factories

`utils.date_factory` / `utils.datetime_factory` (the defaults installed
by `__init__` when no factory is injected) live in `py_yaml_fixtures/
utils.py`, which is not under `src/`. -/

/-- Modelled from the spec: `utils.date_factory`, the default date
factory, is absent from `src/`; per §4.4 and §6 of the spec the default
"parses an ISO-style date string" (ISO-8601, `YYYY-MM-DD`). -/
def iso_date_factory (v : PyVal) : Except Err PyVal :=
  match v with
  | .str s =>
    match intsOf (pySplit (Char.ofNat 45) s) with
    | some [y, m, d] =>
      if 1 ≤ y ∧ 1 ≤ m ∧ m ≤ 12 ∧ 1 ≤ d ∧ d ≤ 31 then .ok (.date y m d)
      else .error .valueError
    | _ => .error .valueError
  | _ => .error .valueError

/-! ### Concrete scenarios

Small registered schemas and states used to instantiate the theorems on
concrete runs. -/

/-- A model with one date, one time, one duration and one UUID column. -/
def eventClass : ModelClass :=
  { columns := [],
    relationships := [],
    attrInfo := fun k =>
      if k == "d" then some (some ColType.dateKind)
      else if k == "t" then some (some ColType.timeKind)
      else if k == "dur" then some (some ColType.durationKind)
      else if k == "u" then some (some ColType.uuid)
      else Option.none }

/-- A factory registering `eventClass`, with the default (ISO) date
factory. -/
def eventFactory : Factory :=
  { models := [("Event", eventClass)],
    backendQuery := fun _ _ => [],
    date_factory := iso_date_factory,
    datetime_factory := iso_date_factory,
    convert_identifiers := fun v => v }

/-- A model with an integer primary key and untyped scalar columns. -/
def userClass : ModelClass :=
  { columns := [{ name := "id", primary_key := true, unique := false }],
    relationships := [],
    attrInfo := fun _ => some Option.none }

/-- A factory registering `userClass` over an empty backend. -/
def userFactory : Factory :=
  { models := [("User", userClass)],
    backendQuery := fun _ _ => [],
    date_factory := iso_date_factory,
    datetime_factory := iso_date_factory,
    convert_identifiers := fun v => v }

/-- The state of a factory before any reconciliation. -/
def emptyState : FactoryState :=
  { objs := fun _ => { cls := "", attrs := fun _ => PyVal.none },
    nextRef := 0,
    sessionSet := [],
    cache := [] }

/-- A state in which identifier `("User", "u1")` was already reconciled
to instance `0`, which carries `id = 1` and `name = "old"`. -/
def userState : FactoryState :=
  { objs := fun r =>
      if r == 0 then
        { cls := "User",
          attrs := fun k =>
            if k == "id" then PyVal.int 1
            else if k == "name" then PyVal.str "old"
            else PyVal.none }
      else { cls := "", attrs := fun _ => PyVal.none },
    nextRef := 1,
    sessionSet := [0],
    cache := [(("User", "u1"), 0)] }

/-- A model with a primary key and a unique `email` column. -/
def memberClass : ModelClass :=
  { columns := [{ name := "id", primary_key := true, unique := false },
                { name := "email", primary_key := false, unique := true }],
    relationships := [],
    attrInfo := fun _ => some Option.none }

/-- A factory registering `memberClass` over a backend whose existence
query returns the rows `rows`. -/
def memberFactory (rows : List Nat) : Factory :=
  { models := [("Member", memberClass)],
    backendQuery := fun _ _ => rows,
    date_factory := iso_date_factory,
    datetime_factory := iso_date_factory,
    convert_identifiers := fun v => v }

/-- The referenced side of a relationship: a plain model with an `id`
primary key. -/
def authorClass : ModelClass :=
  { columns := [{ name := "id", primary_key := true, unique := false }],
    relationships := [],
    attrInfo := fun _ => some Option.none }

/-- The referencing side: `Post.author` is a relationship attribute. -/
def postClass : ModelClass :=
  { columns := [{ name := "id", primary_key := true, unique := false }],
    relationships := ["author"],
    attrInfo := fun _ => some Option.none }

/-- A factory registering both sides of the relationship. -/
def blogFactory : Factory :=
  { models := [("Post", postClass), ("Author", authorClass)],
    backendQuery := fun _ _ => [],
    date_factory := iso_date_factory,
    datetime_factory := iso_date_factory,
    convert_identifiers := fun v => v }

/-- A state holding one staged `Author` instance (reference `5`) whose
primary key is still `None` — an identity not yet assigned. -/
def blogState : FactoryState :=
  { objs := fun r =>
      if r == 5 then { cls := "Author", attrs := fun _ => PyVal.none }
      else { cls := "", attrs := fun _ => PyVal.none },
    nextRef := 6,
    sessionSet := [5],
    cache := [] }

/-- A dict heap holding one dict (reference `0`) with a date-typed
attribute. -/
def dateDictHeap : DictHeap :=
  { store := fun r => if r == 0 then [("d", PyVal.str "2024-01-15")] else [],
    next := 1 }

/-! ## Theorems -/

/-! ### Association-list and attribute-fold lemmas -/

/-- Looking up a key just inserted at the front of an association
list. -/
theorem alookup_cons_self {α β : Type} [BEq α] [LawfulBEq α]
    (l : List (α × β)) (k : α) (v : β) : alookup ((k, v) :: l) k = some v := by
  simp [alookup]

/-- Unfolding `lookupKey` on a cons cell. -/
theorem lookupKey_cons (kv : String × PyVal) (d : PyDict) (k : String) :
    lookupKey (kv :: d) k = if kv.1 == k then some kv.2 else lookupKey d k := by
  cases h : (kv.1 == k) <;> simp [lookupKey, List.find?_cons, h]

/-- A key bound nowhere in the dict looks up to `none`. -/
theorem lookupKey_eq_none_of_not_mem (d : PyDict) (k : String)
    (h : k ∉ d.map Prod.fst) : lookupKey d k = Option.none := by
  induction d with
  | nil => rfl
  | cons kv rest ih =>
    rw [lookupKey_cons]
    have h1 : (kv.1 == k) = false := by
      refine beq_eq_false_iff_ne.mpr (fun he => h ?_)
      rw [List.map_cons, he]
      exact List.mem_cons_self k _
    have h2 : k ∉ rest.map Prod.fst := fun hm => h (List.mem_cons_of_mem _ hm)
    simp [h1, ih h2]

/-- The `setattr` loop of the update path (line 48–49): a key not in
`data` keeps its old attribute value. -/
theorem foldl_update_not_mem (d : PyDict) (a : String → PyVal) (k : String)
    (h : lookupKey d k = Option.none) :
    d.foldl (fun f kv => Function.update f kv.1 kv.2) a k = a k := by
  induction d generalizing a with
  | nil => rfl
  | cons kv rest ih =>
    rw [lookupKey_cons] at h
    rw [List.foldl_cons]
    by_cases hk : kv.1 == k
    · simp [hk] at h
    · rw [ih _ (by simpa [hk] using h)]
      exact Function.update_noteq (fun he => by simp [he] at hk) _ _

/-- The `setattr` loop of the update path: a key of `data` ends bound
to its value in `data` (keys are unique in a Python dict). -/
theorem foldl_update_mem (d : PyDict) :
    ∀ (a : String → PyVal) (k : String) (v : PyVal),
      (d.map Prod.fst).Nodup → lookupKey d k = some v →
      d.foldl (fun f kv => Function.update f kv.1 kv.2) a k = v := by
  induction d with
  | nil => intro a k v _ h; cases h
  | cons kv rest ih =>
    intro a k v hnd h
    rw [lookupKey_cons] at h
    rw [List.foldl_cons]
    rw [List.map_cons, List.nodup_cons] at hnd
    by_cases hk : kv.1 == k
    · have hv : v = kv.2 := by simp [hk] at h; exact h.symm
      have hke : kv.1 = k := by simpa using hk
      have hnone : lookupKey rest k = Option.none :=
        lookupKey_eq_none_of_not_mem rest k (by rw [← hke]; exact hnd.1)
      rw [foldl_update_not_mem rest _ k hnone, hke, Function.update_same, hv]
    · exact ih _ k v hnd.2 (by simpa [hk] using h)

/-! ### Upsert-path lemmas -/

/-- When the matcher reports no existing instance, `create_or_update`
takes the creation path: it builds a fresh instance from `data`, bumps
the heap, stages it in the session and caches it, and reports
`created = true`. -/
theorem create_or_update_fresh (F : Factory) (s : FactoryState) (ident : Identifier)
    (d : PyDict) (hfresh : get_existing F s ident d = .ok Option.none) :
    create_or_update F s ident d =
      .ok ((s.nextRef, true),
        addAndCache
          { s with
            objs := Function.update s.objs s.nextRef
              { cls := ident.class_name,
                attrs := fun k => (lookupKey d k).getD PyVal.none },
            nextRef := s.nextRef + 1 } ident s.nextRef) := by
  have hm : ∃ mc, alookup F.models ident.class_name = some mc := by
    cases h : alookup F.models ident.class_name with
    | none => simp [get_existing, h] at hfresh
    | some mc => exact ⟨mc, rfl⟩
  obtain ⟨mc, hm⟩ := hm
  simp [create_or_update, hfresh, hm]

/-- The cache tier of `_get_existing` (lines 58–60): a cached instance
of the right class still contained in the session is returned without
querying. -/
theorem get_existing_cache_hit (F : Factory) (s : FactoryState) (ident : Identifier)
    (d : PyDict) (mc : ModelClass) (r : Nat)
    (hm : alookup F.models ident.class_name = some mc)
    (hc : alookup s.cache (ident.class_name, ident.key) = some r)
    (hcls : ((s.objs r).cls == ident.class_name) = true)
    (hin : s.sessionSet.contains r = true) :
    get_existing F s ident d = .ok (some r) := by
  have hin2 : r ∈ s.sessionSet := by simpa using hin
  simp [get_existing, hm, hc, hcls, hin2]

/-- When the matcher reports an existing instance, `create_or_update`
takes the update path: it assigns every attribute of `data` onto that
instance, stages and caches it, and reports `created = false`. -/
theorem create_or_update_matched (F : Factory) (s : FactoryState) (ident : Identifier)
    (d : PyDict) (r : Nat) (h : get_existing F s ident d = .ok (some r)) :
    create_or_update F s ident d =
      .ok ((r, false),
        addAndCache
          { s with
            objs := Function.update s.objs r
              { cls := (s.objs r).cls,
                attrs := d.foldl (fun f kv => Function.update f kv.1 kv.2)
                  (s.objs r).attrs } }
          ident r) := by
  simp [create_or_update, h]

/-- C1: on a fresh identifier (the matcher finds nothing — in
particular no matching row pre-exists in the backend), reconciling the
same identifier and record twice yields `created = true` then
`created = false`, and both calls return the same instance reference
`r`: the second call short-circuits on the instance cache the first
call filled, whose entry is of the expected class and still in the
session. -/
theorem reconcile_idempotent (F : Factory) (s : FactoryState) (ident : Identifier)
    (d : PyDict) (hfresh : get_existing F s ident d = .ok Option.none) :
    ∃ r s1 s2,
      create_or_update F s ident d = .ok ((r, true), s1) ∧
      create_or_update F s1 ident d = .ok ((r, false), s2) := by
  have hm : ∃ mc, alookup F.models ident.class_name = some mc := by
    cases h : alookup F.models ident.class_name with
    | none => simp [get_existing, h] at hfresh
    | some mc => exact ⟨mc, rfl⟩
  obtain ⟨mc, hm⟩ := hm
  refine ⟨s.nextRef, _, _, create_or_update_fresh F s ident d hfresh,
    create_or_update_matched F _ ident d s.nextRef
      (get_existing_cache_hit F _ ident d mc s.nextRef hm
        (alookup_cons_self _ _ _) ?_ ?_)⟩
  · simp [addAndCache, Function.update_same]
  · simp [addAndCache]

/-- Witness for C1: loading `("User", "u1")` with `id = 1` into an
empty factory creates on the first call and updates (same instance) on
the second. -/
theorem reconcile_idempotent_witness :
    ∃ r s1 s2,
      create_or_update userFactory emptyState ⟨"User", "u1"⟩ [("id", PyVal.int 1)] =
        .ok ((r, true), s1) ∧
      create_or_update userFactory s1 ⟨"User", "u1"⟩ [("id", PyVal.int 1)] =
        .ok ((r, false), s2) :=
  reconcile_idempotent userFactory emptyState ⟨"User", "u1"⟩ [("id", PyVal.int 1)]
    (by decide)

/-- C4: when the matcher finds an existing instance, the update path
sets exactly the keys of the (coerced) data: each key present in the
data ends bound to its data value (full overwrite), and every attribute
absent from the data keeps the value it had before the call. -/
theorem update_overwrites_exactly (F : Factory) (s : FactoryState) (ident : Identifier)
    (d : PyDict) (r : Nat)
    (hmatch : get_existing F s ident d = .ok (some r))
    (hnd : (d.map Prod.fst).Nodup) :
    ∃ s2, create_or_update F s ident d = .ok ((r, false), s2) ∧
      (∀ k v, lookupKey d k = some v → (s2.objs r).attrs k = v) ∧
      (∀ k, lookupKey d k = Option.none → (s2.objs r).attrs k = (s.objs r).attrs k) := by
  refine ⟨_, create_or_update_matched F s ident d r hmatch, ?_, ?_⟩
  · intro k v hk
    show (Function.update s.objs r
      { cls := (s.objs r).cls,
        attrs := d.foldl (fun f kv => Function.update f kv.1 kv.2) (s.objs r).attrs }
      r).attrs k = v
    rw [Function.update_same]
    exact foldl_update_mem d _ k v hnd hk
  · intro k hk
    show (Function.update s.objs r
      { cls := (s.objs r).cls,
        attrs := d.foldl (fun f kv => Function.update f kv.1 kv.2) (s.objs r).attrs }
      r).attrs k = (s.objs r).attrs k
    rw [Function.update_same]
    exact foldl_update_not_mem d _ k hk

/-- Witness for C4: updating the already-reconciled `("User", "u1")`
(instance `0`, holding `id = 1`, `name = "old"`) with a record binding
only `name` overwrites `name` and leaves every other attribute
unchanged. -/
theorem update_overwrites_exactly_witness :
    ∃ s2, create_or_update userFactory userState ⟨"User", "u1"⟩
        [("name", PyVal.str "new")] = .ok ((0, false), s2) ∧
      (∀ k v, lookupKey [("name", PyVal.str "new")] k = some v →
        (s2.objs 0).attrs k = v) ∧
      (∀ k, lookupKey [("name", PyVal.str "new")] k = Option.none →
        (s2.objs 0).attrs k = (userState.objs 0).attrs k) :=
  update_overwrites_exactly userFactory userState ⟨"User", "u1"⟩
    [("name", PyVal.str "new")] 0 (by decide) (by decide)

/-! ### Coercion-loop lemmas -/

/-- An entry of `data` whose conversion step does not assign (and does
not raise) survives the coercion loop bound to its original value. -/
theorem mcvList_lookup (F : Factory) (mc : ModelClass) (data : PyDict) :
    ∀ (k : String) (v : PyVal), (k, v) ∈ data → (data.map Prod.fst).Nodup →
      convertOne F mc k v = .ok Option.none →
      ∀ out, mcvList F mc data = .ok out → lookupKey out k = some v := by
  induction data with
  | nil => intro k v hmem; cases hmem
  | cons kv rest ih =>
    intro k v hmem hnd hpass out hout
    rw [List.map_cons, List.nodup_cons] at hnd
    cases hc : convertOne F mc kv.1 kv.2 with
    | error e => simp [mcvList, hc] at hout
    | ok nv =>
      cases hr : mcvList F mc rest with
      | error e => simp [mcvList, hc, hr] at hout
      | ok out2 =>
        have hout2 : out = (kv.1, nv.getD kv.2) :: out2 := by
          simp [mcvList, hc, hr] at hout
          exact hout.symm
        subst hout2
        rcases List.mem_cons.mp hmem with heq | hmem2
        · have h1 : kv.1 = k := by rw [← heq]
          have h2 : kv.2 = v := by rw [← heq]
          have hnv : nv = Option.none := by
            rw [h1, h2, hpass] at hc
            exact (Except.ok.inj hc).symm
          rw [lookupKey_cons]
          simp [h1, hnv, h2]
        · have hne : (kv.1 == k) = false := by
            refine beq_eq_false_iff_ne.mpr (fun he => ?_)
            exact hnd.1 (he ▸ List.mem_map_of_mem Prod.fst hmem2)
          rw [lookupKey_cons]
          simp only [hne, if_neg]
          simp only [Bool.false_eq_true, if_false]
          exact ih k v hmem2 hnd.2 hpass out2 hr

/-- C8: a non-relationship attribute whose class descriptor has no
`.type` (no declared type information) makes the loop `continue`: its
conversion step succeeds without assigning, and on any successful
coercion the output binds that attribute to the unchanged raw value. -/
theorem untyped_attrs_pass_through (F : Factory) (ident : Identifier) (mc : ModelClass)
    (data : PyDict) (k : String) (v : PyVal)
    (hm : alookup F.models ident.class_name = some mc)
    (hmem : (k, v) ∈ data)
    (hnd : (data.map Prod.fst).Nodup)
    (hnr : mc.relationships.contains k = false)
    (hnt : mc.attrInfo k = some Option.none) :
    convertOne F mc k v = .ok Option.none ∧
    ∀ out, maybe_convert_values F ident data = .ok out → lookupKey out k = some v := by
  have hpass : convertOne F mc k v = .ok Option.none := by
    have hnr2 : k ∉ mc.relationships := by simpa using hnr
    simp [convertOne, hnt, hnr2]
  refine ⟨hpass, fun out hout => ?_⟩
  rw [maybe_convert_values, hm] at hout
  exact mcvList_lookup F mc data k v hmem hnd hpass out hout

/-- Witness for C8: an untyped scalar attribute `nick` of `userClass`
passes through coercion unchanged. -/
theorem untyped_attrs_pass_through_witness :
    convertOne userFactory userClass "nick" (PyVal.str "zed") = .ok Option.none ∧
    ∀ out, maybe_convert_values userFactory ⟨"User", "u1"⟩
        [("nick", PyVal.str "zed")] = .ok out →
      lookupKey out "nick" = some (PyVal.str "zed") :=
  untyped_attrs_pass_through userFactory ⟨"User", "u1"⟩ userClass
    [("nick", PyVal.str "zed")] "nick" (PyVal.str "zed")
    rfl (by decide) (by decide) (by decide) rfl

/-- Integer parsing of split components preserves the component
count. -/
theorem intsOf_length (l : List String) :
    ∀ args, intsOf l = some args → args.length = l.length := by
  induction l with
  | nil =>
    intro args h
    have : args = [] := by simpa [intsOf] using h.symm
    simp [this]
  | cons x rest ih =>
    intro args h
    cases hp : pyInt x with
    | none => simp [intsOf, hp] at h
    | some n =>
      simp only [intsOf, hp] at h
      rcases Option.map_eq_some'.mp h with ⟨l2, hl2, rfl⟩
      simp [List.length_cons, ih l2 hl2]

/-- A single unparsable component fails the whole component list. -/
theorem intsOf_none_of_mem (l : List String) (x : String) (hx : x ∈ l)
    (hp : pyInt x = Option.none) : intsOf l = Option.none := by
  induction l with
  | nil => cases hx
  | cons y rest ih =>
    rcases List.mem_cons.mp hx with rfl | hx2
    · simp [intsOf, hp]
    · cases hpy : pyInt y with
      | none => simp [intsOf, hpy]
      | some n => simp [intsOf, hpy, ih hx2]

/-- More than four positional arguments to `datetime.time` raise
`TypeError`. -/
theorem mkTime_long (args : List Int) (h : 4 < args.length) :
    mkTime args = .error .typeError := by
  rcases args with _ | ⟨a, _ | ⟨b, _ | ⟨c, _ | ⟨d, _ | ⟨e, rest⟩⟩⟩⟩⟩
  · simp at h
  · simp at h
  · simp at h
  · simp at h
  · simp at h
  · rfl

/-- C10: for a time-kind attribute the coercion builds
`time(*[int(x) for x in value.split(":")])` from however many
colon-separated components are present — the two-component "13:05"
yields 13:05:00 — while more than four components raise (`TypeError`
from the `time` constructor) and any non-integer component raises
(`ValueError` from `int`). -/
theorem time_parsing_component_counts (F : Factory) (mc : ModelClass) (k : String)
    (s : String)
    (hnr : mc.relationships.contains k = false)
    (ht : mc.attrInfo k = some (some ColType.timeKind)) :
    convertOne F mc k (.str "13:05") = .ok (some (.time 13 5 0 0)) ∧
    (4 < (pySplit (Char.ofNat 58) s).length →
      ∃ e, convertOne F mc k (.str s) = .error e) ∧
    ((∃ x ∈ pySplit (Char.ofNat 58) s, pyInt x = Option.none) →
      ∃ e, convertOne F mc k (.str s) = .error e) := by
  have hbranch : ∀ t : String,
      convertOne F mc k (.str t) = (parseTimeStr t).map some := by
    intro t
    have hnr2 : k ∉ mc.relationships := by simpa using hnr
    simp [convertOne, ht, hnr2]
  refine ⟨?_, ?_, ?_⟩
  · rw [hbranch]
    decide
  · intro hlen
    rw [hbranch]
    cases hio : intsOf (pySplit (Char.ofNat 58) s) with
    | none => exact ⟨.valueError, by simp [parseTimeStr, hio, Except.map]⟩
    | some args =>
      refine ⟨.typeError, ?_⟩
      have hla := intsOf_length _ args hio
      simp [parseTimeStr, hio, Except.map,
        mkTime_long args (by rw [hla]; exact hlen)]
  · rintro ⟨x, hx, hp⟩
    rw [hbranch]
    exact ⟨.valueError,
      by simp [parseTimeStr, Except.map, intsOf_none_of_mem _ x hx hp]⟩

/-- Witness for C10: on the time column `t` of `eventClass`, "13:05"
parses to 13:05:00, the five-component "1:2:3:4:5" raises, and the
non-integer "13:xx" raises. -/
theorem time_parsing_component_counts_witness :
    convertOne eventFactory eventClass "t" (.str "13:05") =
      .ok (some (.time 13 5 0 0)) ∧
    (∃ e, convertOne eventFactory eventClass "t" (.str "1:2:3:4:5") = .error e) ∧
    (∃ e, convertOne eventFactory eventClass "t" (.str "13:xx") = .error e) :=
  ⟨(time_parsing_component_counts eventFactory eventClass "t" "1:2:3:4:5"
      (by decide) rfl).1,
   (time_parsing_component_counts eventFactory eventClass "t" "1:2:3:4:5"
      (by decide) rfl).2.1 (by decide),
   (time_parsing_component_counts eventFactory eventClass "t" "13:xx"
      (by decide) rfl).2.2 ⟨"xx", by decide, by decide⟩⟩

/-- The conversion loop writes only through the `rv` reference: the
stored dict at every other reference is untouched, whether the loop
completes or raises partway. -/
theorem mcvLoopSt_frame (F : Factory) (mc : ModelClass) (rv : Nat)
    (l : List (String × PyVal)) :
    ∀ (h h2 : DictHeap) (x : Nat), x ≠ rv →
      (mcvLoopSt F mc rv l h = .ok h2 → h2.store x = h.store x) ∧
      (∀ e, mcvLoopSt F mc rv l h = .error (e, h2) → h2.store x = h.store x) := by
  induction l with
  | nil =>
    intro h h2 x hx
    constructor
    · intro he
      have : h = h2 := by simpa [mcvLoopSt] using he
      rw [this]
    · intro e he
      simp [mcvLoopSt] at he
  | cons kv rest ih =>
    intro h h2 x hx
    cases hc : convertOne F mc kv.1 kv.2 with
    | error e0 =>
      constructor
      · intro he
        simp [mcvLoopSt, hc] at he
      · intro e he
        have : e0 = e ∧ h = h2 := by simpa [mcvLoopSt, hc] using he
        rw [this.2]
    | ok nv =>
      cases nv with
      | none =>
        constructor
        · intro he
          exact (ih h h2 x hx).1 (by simpa [mcvLoopSt, hc] using he)
        · intro e he
          exact (ih h h2 x hx).2 e (by simpa [mcvLoopSt, hc] using he)
      | some nv2 =>
        have hupd :
            (Function.update h.store rv (dictSet (h.store rv) kv.1 nv2)) x = h.store x :=
          Function.update_noteq hx _ _
        constructor
        · intro he
          have := (ih { h with
            store := Function.update h.store rv (dictSet (h.store rv) kv.1 nv2) }
            h2 x hx).1 (by simpa [mcvLoopSt, hc] using he)
          rw [this]
          exact hupd
        · intro e he
          have := (ih { h with
            store := Function.update h.store rv (dictSet (h.store rv) kv.1 nv2) }
            h2 x hx).2 e (by simpa [mcvLoopSt, hc] using he)
          rw [this]
          exact hupd

/-- C7: `maybe_convert_values` returns a new mapping and never mutates
its input: run against the explicit dict heap, the output dict is a
fresh reference (distinct from the input reference) and, whether the
call returns or raises, the dict stored at the input reference is
exactly the one passed in — same keys, same values. -/
theorem coerce_never_mutates_input (F : Factory) (ident : Identifier)
    (h : DictHeap) (dref : Nat) (hv : dref < h.next) :
    match maybe_convert_values_st F ident h dref with
    | .ok rvh => rvh.1 ≠ dref ∧ rvh.2.store dref = h.store dref
    | .error eh => eh.2.store dref = h.store dref := by
  have hne : dref ≠ h.next := Nat.ne_of_lt hv
  cases hm : alookup F.models ident.class_name with
  | none => simp [maybe_convert_values_st, hm]
  | some mc =>
    have hst1 :
        (Function.update h.store h.next (h.store dref)) dref = h.store dref :=
      Function.update_noteq hne _ _
    cases hres : mcvLoopSt F mc h.next (h.store dref)
        { store := Function.update h.store h.next (h.store dref), next := h.next + 1 } with
    | ok h2 =>
      have hfr := (mcvLoopSt_frame F mc h.next (h.store dref)
        { store := Function.update h.store h.next (h.store dref), next := h.next + 1 }
        h2 dref hne).1 hres
      simp only [maybe_convert_values_st, hm, hres]
      exact ⟨fun hcon => hne hcon.symm, by rw [hfr]; exact hst1⟩
    | error eh =>
      have hfr := (mcvLoopSt_frame F mc h.next (h.store dref)
        { store := Function.update h.store h.next (h.store dref), next := h.next + 1 }
        eh.2 dref hne).2 eh.1 (by rw [hres])
      simp only [maybe_convert_values_st, hm, hres]
      rw [hfr]
      exact hst1

/-- Witness for C7: coercing the stored date record (reference `0`)
yields a fresh dict and leaves the dict at reference `0` unchanged. -/
theorem coerce_never_mutates_input_witness :
    match maybe_convert_values_st eventFactory ⟨"Event", "e1"⟩ dateDictHeap 0 with
    | .ok rvh => rvh.1 ≠ 0 ∧ rvh.2.store 0 = dateDictHeap.store 0
    | .error eh => eh.2.store 0 = dateDictHeap.store 0 :=
  coerce_never_mutates_input eventFactory ⟨"Event", "e1"⟩ dateDictHeap 0 (by decide)

/-! ### Matcher-tier lemmas -/

/-- When no primary-key or unique column of the class occurs in the
data, the key-filter tier produces nothing. -/
theorem keyFilter_eq_nil (mc : ModelClass) (d : PyDict)
    (h : ∀ c ∈ mc.columns, (c.primary_key || c.unique) = true →
      lookupKey d c.name = Option.none) :
    keyFilter mc d = [] := by
  rw [keyFilter, List.map_eq_nil_iff, List.filter_eq_nil_iff]
  intro c hc
  cases hpu : (c.primary_key || c.unique) with
  | false => simp [hpu]
  | true => simp [hpu, h c hc hpu]

/-- Every key-filter entry comes from a mapper column. -/
theorem keyFilter_keys_are_columns (mc : ModelClass) (d : PyDict) :
    ∀ kv ∈ keyFilter mc d, ∃ c ∈ mc.columns, kv.1 = c.name := by
  intro kv hkv
  rcases List.mem_map.mp hkv with ⟨c, hc, heq⟩
  exact ⟨c, (List.mem_filter.mp hc).1, by rw [← heq]⟩

/-- The key-filter contains exactly the pairs `(k, v)` such that some
mapper column named `k` is primary-key or unique and the data binds `k`
to `v`. -/
theorem keyFilter_mem_iff (mc : ModelClass) (d : PyDict) (k : String) (v : PyVal) :
    (k, v) ∈ keyFilter mc d ↔
      ((∃ c ∈ mc.columns, c.name = k ∧ (c.primary_key || c.unique) = true) ∧
        lookupKey d k = some v) := by
  constructor
  · intro hm
    rcases List.mem_map.mp hm with ⟨c, hc, heq⟩
    rcases List.mem_filter.mp hc with ⟨hcol, hpred⟩
    have h1 : (lookupKey d c.name).isSome = true ∧ (c.primary_key || c.unique) = true := by
      simpa [Bool.and_eq_true] using hpred
    obtain ⟨w, hw⟩ := Option.isSome_iff_exists.mp h1.1
    have hk : c.name = k := congrArg Prod.fst heq
    have hv : (lookupKey d c.name).getD PyVal.none = v := congrArg Prod.snd heq
    rw [hw] at hv
    simp only [Option.getD_some] at hv
    exact ⟨⟨c, hcol, hk, h1.2⟩, by rw [← hk, hw, hv]⟩
  · rintro ⟨⟨c, hc, rfl, hpu⟩, hlook⟩
    refine List.mem_map.mpr ⟨c, List.mem_filter.mpr ⟨hc, ?_⟩, ?_⟩
    · simp [hlook, hpu]
    · simp [hlook]

/-- If no filter item names a relationship attribute, the
relationship-primary-key walk completes and the query proceeds. -/
theorem relPkLoop_all_nonrel (F : Factory) (s : FactoryState) (rels : List String)
    (l : List (String × PyVal)) (h : ∀ kv ∈ l, rels.contains kv.1 = false) :
    relPkLoop F s rels l = .ok true := by
  induction l with
  | nil => rfl
  | cons kv rest ih =>
    have h1 : kv.1 ∉ rels := by simpa using h kv (List.mem_cons_self kv rest)
    simp [relPkLoop, h1, ih (fun kv2 h2 => h kv2 (List.mem_cons_of_mem _ h2))]

/-- If every relationship-valued filter item is a mapped instance of a
registered class, and at least one of them has a primary-key attribute
reading `None`, the walk stops and reports no match (`.ok false`,
`_get_existing`'s early `return None`). -/
theorem relPkLoop_hits_none (F : Factory) (s : FactoryState) (rels : List String)
    (l : List (String × PyVal))
    (hwf : ∀ kv ∈ l, rels.contains kv.1 = true →
      ∃ r, kv.2 = PyVal.ref r ∧ ∃ vmc, alookup F.models (s.objs r).cls = some vmc)
    (hex : ∃ kv ∈ l, rels.contains kv.1 = true ∧ ∃ r, kv.2 = PyVal.ref r ∧
      ∃ vmc, alookup F.models (s.objs r).cls = some vmc ∧
        vmc.primaryKeyNames.any (fun pk => (s.objs r).attrs pk == PyVal.none) = true) :
    relPkLoop F s rels l = .ok false := by
  induction l with
  | nil =>
    rcases hex with ⟨kv, hkv, _⟩
    cases hkv
  | cons kv rest ih =>
    have hwf2 : ∀ kv2 ∈ rest, rels.contains kv2.1 = true →
        ∃ r, kv2.2 = PyVal.ref r ∧ ∃ vmc, alookup F.models (s.objs r).cls = some vmc :=
      fun kv2 h2 => hwf kv2 (List.mem_cons_of_mem _ h2)
    cases hrel : rels.contains kv.1 with
    | false =>
      have hex2 : ∃ kv2 ∈ rest, rels.contains kv2.1 = true ∧ ∃ r, kv2.2 = PyVal.ref r ∧
          ∃ vmc, alookup F.models (s.objs r).cls = some vmc ∧
            vmc.primaryKeyNames.any (fun pk => (s.objs r).attrs pk == PyVal.none) = true := by
        rcases hex with ⟨kv2, hkv2, hprop⟩
        rcases List.mem_cons.mp hkv2 with rfl | hmem
        · rw [hrel] at hprop
          cases hprop.1
        · exact ⟨kv2, hmem, hprop⟩
      have hrel2 : kv.1 ∉ rels := by simpa using hrel
      simpa [relPkLoop, hrel2] using ih hwf2 hex2
    | true =>
      have hrel2 : kv.1 ∈ rels := by simpa using hrel
      rcases hwf kv (List.mem_cons_self kv rest) hrel with ⟨r, href, vmc, hvmc⟩
      cases hany : vmc.primaryKeyNames.any (fun pk => (s.objs r).attrs pk == PyVal.none) with
      | true =>
        have hany3 : ∃ pk ∈ vmc.primaryKeyNames, (s.objs r).attrs pk = PyVal.none := by
          simpa using hany
        simp [relPkLoop, hrel2, href, hvmc, hany3]
      | false =>
        have hex2 : ∃ kv2 ∈ rest, rels.contains kv2.1 = true ∧ ∃ r2, kv2.2 = PyVal.ref r2 ∧
            ∃ vmc2, alookup F.models (s.objs r2).cls = some vmc2 ∧
              vmc2.primaryKeyNames.any (fun pk => (s.objs r2).attrs pk == PyVal.none) = true := by
          rcases hex with ⟨kv2, hkv2, hrel3, r2, href2, vmc2, hvmc2, hany2⟩
          rcases List.mem_cons.mp hkv2 with rfl | hmem
          · have hr : r = r2 := by
              rw [href] at href2
              exact PyVal.ref.inj href2
            rw [← hr] at hvmc2 hany2
            rw [hvmc] at hvmc2
            rw [Option.some.inj hvmc2] at hany
            rw [hany] at hany2
            cases hany2
          · exact ⟨kv2, hmem, hrel3, r2, href2, vmc2, hvmc2, hany2⟩
        have hany3 : ¬∃ pk ∈ vmc.primaryKeyNames, (s.objs r).attrs pk = PyVal.none := by
          simpa using hany
        simpa [relPkLoop, hrel2, href, hvmc, hany3] using ih hwf2 hex2

/-- More than one row from the existence query raises
`MultipleResultsFound`. -/
theorem oneOrNone_multi (rows : List Nat) (h : 2 ≤ rows.length) :
    oneOrNone rows = .error .multipleResultsFound := by
  rcases rows with _ | ⟨a, _ | ⟨b, t⟩⟩
  · simp at h
  · simp at h
  · rfl

/-- A cache miss sends `_get_existing` to the query tiers. -/
theorem get_existing_cache_miss (F : Factory) (s : FactoryState) (ident : Identifier)
    (d : PyDict) (mc : ModelClass)
    (hm : alookup F.models ident.class_name = some mc)
    (hc : alookup s.cache (ident.class_name, ident.key) = Option.none) :
    get_existing F s ident d = queryTiers F s ident.class_name mc d := by
  simp [get_existing, hm, hc]

/-- With a nonempty key filter over non-relationship columns, the
matcher executes the backend query with exactly the key filter. -/
theorem queryTiers_keyfilter (F : Factory) (s : FactoryState) (cls : String)
    (mc : ModelClass) (d : PyDict)
    (hne : keyFilter mc d ≠ [])
    (hdisj : ∀ c ∈ mc.columns, mc.relationships.contains c.name = false) :
    queryTiers F s cls mc d = oneOrNone (F.backendQuery cls (keyFilter mc d)) := by
  have hnr : ∀ kv ∈ keyFilter mc d, mc.relationships.contains kv.1 = false := by
    intro kv hkv
    rcases keyFilter_keys_are_columns mc d kv hkv with ⟨c, hc, hname⟩
    rw [hname]
    exact hdisj c hc
  simp [queryTiers, hne, relPkLoop_all_nonrel F s _ _ hnr]

/-- With an empty key filter, a nonempty fallback filter, and a
relationship walk that stops on an unresolved primary key, the matcher
reports no existing instance without querying. -/
theorem queryTiers_fallback_none (F : Factory) (s : FactoryState) (cls : String)
    (mc : ModelClass) (d : PyDict)
    (hkf : keyFilter mc d = [])
    (hne : fallbackFilter mc.relationships d ≠ [])
    (hloop : relPkLoop F s mc.relationships (fallbackFilter mc.relationships d) = .ok false) :
    queryTiers F s cls mc d = .ok Option.none := by
  simp [queryTiers, hkf, hne, hloop]

/-- C5: when the data contains primary-key or unique columns (over a
schema whose column names are not relationship attributes), the matcher
queries the backend with an equality filter built over exactly those
primary-key/unique columns present in the data and no others — in
particular a differing non-unique attribute such as `name` is not part
of the filter and cannot prevent the match. -/
theorem key_filter_tier_exact (F : Factory) (s : FactoryState) (ident : Identifier)
    (d : PyDict) (mc : ModelClass)
    (hm : alookup F.models ident.class_name = some mc)
    (hc : alookup s.cache (ident.class_name, ident.key) = Option.none)
    (hne : keyFilter mc d ≠ [])
    (hdisj : ∀ c ∈ mc.columns, mc.relationships.contains c.name = false) :
    get_existing F s ident d =
      oneOrNone (F.backendQuery ident.class_name (keyFilter mc d)) ∧
    ∀ k v, (k, v) ∈ keyFilter mc d ↔
      ((∃ c ∈ mc.columns, c.name = k ∧ (c.primary_key || c.unique) = true) ∧
        lookupKey d k = some v) :=
  ⟨(get_existing_cache_miss F s ident d mc hm hc).trans
      (queryTiers_keyfilter F s ident.class_name mc d hne hdisj),
   fun k v => keyFilter_mem_iff mc d k v⟩

/-- Witness for C5: matching `Member` data with a unique `email` and a
differing `name` queries on the key filter, which holds exactly the
`email` binding. -/
theorem key_filter_tier_exact_witness :
    get_existing (memberFactory [7]) emptyState ⟨"Member", "m1"⟩
        [("email", PyVal.str "a@x.com"), ("name", PyVal.str "new")] =
      oneOrNone ((memberFactory [7]).backendQuery "Member"
        (keyFilter memberClass
          [("email", PyVal.str "a@x.com"), ("name", PyVal.str "new")])) ∧
    ∀ k v, (k, v) ∈ keyFilter memberClass
        [("email", PyVal.str "a@x.com"), ("name", PyVal.str "new")] ↔
      ((∃ c ∈ memberClass.columns, c.name = k ∧ (c.primary_key || c.unique) = true) ∧
        lookupKey [("email", PyVal.str "a@x.com"), ("name", PyVal.str "new")] k =
          some v) :=
  key_filter_tier_exact (memberFactory [7]) emptyState ⟨"Member", "m1"⟩
    [("email", PyVal.str "a@x.com"), ("name", PyVal.str "new")] memberClass
    rfl rfl (by decide) (by decide)

/-- C9: when the backend returns more than one row for the existence
filter, `one_or_none` raises `MultipleResultsFound` (the spec's
`AmbiguousMatch`); `_get_existing` propagates it and `create_or_update`
surfaces it to the caller with the state unchanged — no row is silently
picked. -/
theorem ambiguous_match_propagated (F : Factory) (s : FactoryState) (ident : Identifier)
    (d : PyDict) (mc : ModelClass)
    (hm : alookup F.models ident.class_name = some mc)
    (hc : alookup s.cache (ident.class_name, ident.key) = Option.none)
    (hne : keyFilter mc d ≠ [])
    (hdisj : ∀ c ∈ mc.columns, mc.relationships.contains c.name = false)
    (hmulti : 2 ≤ (F.backendQuery ident.class_name (keyFilter mc d)).length) :
    get_existing F s ident d = .error .multipleResultsFound ∧
    create_or_update F s ident d = .error (.multipleResultsFound, s) := by
  have h1 : get_existing F s ident d = .error .multipleResultsFound :=
    ((get_existing_cache_miss F s ident d mc hm hc).trans
      (queryTiers_keyfilter F s ident.class_name mc d hne hdisj)).trans
      (oneOrNone_multi _ hmulti)
  exact ⟨h1, by simp [create_or_update, h1]⟩

/-- Witness for C9: two backend rows matching the `email` filter make
the reconcile call fail with `MultipleResultsFound`. -/
theorem ambiguous_match_propagated_witness :
    get_existing (memberFactory [7, 8]) emptyState ⟨"Member", "m1"⟩
        [("email", PyVal.str "a@x.com")] = .error .multipleResultsFound ∧
    create_or_update (memberFactory [7, 8]) emptyState ⟨"Member", "m1"⟩
        [("email", PyVal.str "a@x.com")] =
      .error (.multipleResultsFound, emptyState) :=
  ambiguous_match_propagated (memberFactory [7, 8]) emptyState ⟨"Member", "m1"⟩
    [("email", PyVal.str "a@x.com")] memberClass
    rfl rfl (by decide) (by decide) (by decide)

/-- C2: when the data reaches the fallback filter (no primary-key or
unique column present) and contains a relationship attribute whose
referenced instance has every primary-key attribute still `None`, the
relationship walk returns `None` instead of raising, and
`create_or_update` therefore creates a new instance
(`created = true`). -/
theorem unresolved_reference_creates (F : Factory) (s : FactoryState) (ident : Identifier)
    (d : PyDict) (mc : ModelClass)
    (hm : alookup F.models ident.class_name = some mc)
    (hc : alookup s.cache (ident.class_name, ident.key) = Option.none)
    (hpk : ∀ c ∈ mc.columns, (c.primary_key || c.unique) = true →
      lookupKey d c.name = Option.none)
    (hwf : ∀ kv ∈ d, mc.relationships.contains kv.1 = true →
      ∃ r, kv.2 = PyVal.ref r ∧ ∃ vmc, alookup F.models (s.objs r).cls = some vmc)
    (hex : ∃ kv ∈ d, mc.relationships.contains kv.1 = true ∧ ∃ r, kv.2 = PyVal.ref r ∧
      ∃ vmc, alookup F.models (s.objs r).cls = some vmc ∧
        vmc.primaryKeyNames ≠ [] ∧
        ∀ pk ∈ vmc.primaryKeyNames, (s.objs r).attrs pk = PyVal.none) :
    get_existing F s ident d = .ok Option.none ∧
    ∃ s2, create_or_update F s ident d = .ok ((s.nextRef, true), s2) := by
  have hkf : keyFilter mc d = [] := keyFilter_eq_nil mc d hpk
  obtain ⟨kv, hkv, hrel, r, href, vmc, hvmc, hpks, hall⟩ := hex
  have hkvf : kv ∈ fallbackFilter mc.relationships d := by
    refine List.mem_filter.mpr ⟨hkv, ?_⟩
    have hrel2 : kv.1 ∈ mc.relationships := by simpa using hrel
    simp [href, PyVal.isRef, hrel2]
  have hne : fallbackFilter mc.relationships d ≠ [] := by
    intro hnil
    rw [hnil] at hkvf
    cases hkvf
  have hwf2 : ∀ kv2 ∈ fallbackFilter mc.relationships d,
      mc.relationships.contains kv2.1 = true →
      ∃ r2, kv2.2 = PyVal.ref r2 ∧ ∃ vmc2, alookup F.models (s.objs r2).cls = some vmc2 :=
    fun kv2 h2 => hwf kv2 (List.mem_filter.mp h2).1
  have hany : vmc.primaryKeyNames.any (fun pk => (s.objs r).attrs pk == PyVal.none) = true := by
    rcases List.exists_mem_of_ne_nil _ hpks with ⟨pk0, hpk0⟩
    exact List.any_eq_true.mpr ⟨pk0, hpk0, by simp [hall pk0 hpk0]⟩
  have hloop := relPkLoop_hits_none F s mc.relationships _ hwf2
    ⟨kv, hkvf, hrel, r, href, vmc, hvmc, hany⟩
  have hge : get_existing F s ident d = .ok Option.none :=
    (get_existing_cache_miss F s ident d mc hm hc).trans
      (queryTiers_fallback_none F s ident.class_name mc d hkf hne hloop)
  exact ⟨hge, _, create_or_update_fresh F s ident d hge⟩

/-- Witness for C2: a `Post` record referencing the staged `Author`
instance `5` whose primary key is still `None` reconciles to a fresh
`Post` with `created = true` and no exception. -/
theorem unresolved_reference_creates_witness :
    get_existing blogFactory blogState ⟨"Post", "p1"⟩ [("author", PyVal.ref 5)] =
      .ok Option.none ∧
    ∃ s2, create_or_update blogFactory blogState ⟨"Post", "p1"⟩
        [("author", PyVal.ref 5)] = .ok ((blogState.nextRef, true), s2) :=
  unresolved_reference_creates blogFactory blogState ⟨"Post", "p1"⟩
    [("author", PyVal.ref 5)] postClass rfl rfl (by decide)
    (by
      intro kv hkv hrel
      have hkv2 : kv = ("author", PyVal.ref 5) := by simpa using hkv
      rw [hkv2]
      exact ⟨5, rfl, authorClass, rfl⟩)
    ⟨("author", PyVal.ref 5), by simp, by decide, 5, rfl, authorClass, rfl,
      by decide, by decide⟩

/-- C6: under the default ISO date factory, `maybe_convert_values` maps
a date-kind value "2024-01-15" to the date 2024-01-15, a time-kind
value "13:05:00" to the time 13:05:00, a duration-kind value "2 days"
to exactly two days (172 800 000 000 µs), and passes a UUID-kind value
through unchanged. -/
theorem coercion_round_trips :
    maybe_convert_values eventFactory ⟨"Event", "e1"⟩ [("d", .str "2024-01-15")] =
      .ok [("d", .date 2024 1 15)] ∧
    maybe_convert_values eventFactory ⟨"Event", "e1"⟩ [("t", .str "13:05:00")] =
      .ok [("t", .time 13 5 0 0)] ∧
    maybe_convert_values eventFactory ⟨"Event", "e1"⟩ [("dur", .str "2 days")] =
      .ok [("dur", .timedelta 172800000000)] ∧
    maybe_convert_values eventFactory ⟨"Event", "e1"⟩ [("u", .str "3fae4af0")] =
      .ok [("u", .str "3fae4af0")] :=
  ⟨by decide, by decide, by decide, by decide⟩

/-- C3: an identifier whose type name has no registered model raises
`KeyError` (the spec's `UnknownType`) out of the `self.models` lookup
at the top of `_get_existing`, before any mutation, so the error state
is exactly the input state: nothing was constructed, staged in the
session, or written to the instance cache. -/
theorem unknown_type_is_fatal_no_mutation (F : Factory) (s : FactoryState)
    (ident : Identifier) (d : PyDict)
    (h : alookup F.models ident.class_name = Option.none) :
    create_or_update F s ident d = .error (.keyError, s) := by
  simp [create_or_update, get_existing, h]

/-- Witness for C3: reconciling `Identifier("Ghost", "k1")` with an
empty record raises and leaves the empty state untouched. -/
theorem unknown_type_is_fatal_no_mutation_witness :
    create_or_update userFactory emptyState ⟨"Ghost", "k1"⟩ [] =
      .error (.keyError, emptyState) :=
  unknown_type_is_fatal_no_mutation userFactory emptyState ⟨"Ghost", "k1"⟩ [] rfl

end PyYamlFixtures
